import Mathlib

/-!
# Wealthfolio CSV activity import — verification of the import mapping engine

Shallow embedding of the CSV activity-import logic of the repository:

* `ActivityImportForm` (field resolution `getMappedValue`, activity-type
  matching `getMappedActivityType`, the row transformation and the
  `handleImport` control flow), and
* `useActivityImportMutations` (the save-then-check mutation).

JavaScript strings are embedded as Lean `String`, with the JS string
operations (`trim`, `toUpperCase`, `startsWith`) re-implemented over
`String.data` so they are kernel-computable.  A JS value of type
`number` is embedded as `Option ℚ` (`JSNum`), where `none` stands for
`NaN`; a value of type `string | undefined` is embedded as
`Option String`, where `none` stands for `undefined`.  A computation
that can throw a `TypeError` (calling `.trim()` on `undefined`) is
embedded as an `Option`-valued function, `none` standing for the thrown
exception.

`parseFloat`, `isCashActivity` and `validateActivities` are external to
the two source files under verification (`parseFloat` is a JS builtin,
the other two live in `utils/csvValidation`); the embedding takes them
as parameters, and the theorems are quantified over them.  `parseDec`
is a concrete decimal parser used to instantiate `parseFloat` in
witnesses; it agrees with JS `parseFloat` on the plain decimal strings
used there.
-/

/-- JS `number`, with `none` standing for `NaN`.  Finite doubles are
embedded as rationals (exact for the decimal literals that occur in
CSV cells and in the claims). -/
abbrev JSNum := Option ℚ

/-- JS `s.toUpperCase()` (ASCII range, which is all the matcher needs). -/
def jsToUpper (s : String) : String := ⟨s.data.map Char.toUpper⟩

/-- JS `s.trim()`: strip whitespace from both ends. -/
def jsTrim (s : String) : String :=
  ⟨(((s.data.dropWhile Char.isWhitespace).reverse).dropWhile Char.isWhitespace).reverse⟩

/-- JS `s.startsWith(p)`. -/
def jsStartsWith (s p : String) : Bool := s.data.take p.data.length == p.data

/-- JS `x || d` on a number known to be `NaN`-or-rational: falsy (`NaN`
or `0`) falls back to the default `d`.  This is `parseFloat(...) || d`
from the source. -/
def jsOr (x : JSNum) (d : ℚ) : ℚ :=
  match x with
  | none => d
  | some q => if q = 0 then d else q

/-- `parseFloat(v)` where `v : string | undefined`: JS coerces
`undefined` to the string `"undefined"`, which parses to `NaN`. -/
def jsParseFloat (pf : String → JSNum) (v : Option String) : JSNum :=
  match v with
  | none => none
  | some s => pf s

/-- The logical import fields (`ImportFormat` in `@/lib/types`, closed
enumeration per the data model: Date, Symbol, ActivityType, Quantity,
UnitPrice, Currency, Fee, Amount). -/
inductive ImportFormat where
  | Date
  | Symbol
  | ActivityType
  | Quantity
  | UnitPrice
  | Currency
  | Fee
  | Amount
deriving DecidableEq

/-- An account as used by the import form: only `id` and `currency`
matter to the transformation (currency fallback). -/
structure Account where
  id : String
  name : String
  currency : String

/-- `ImportMappingData`: the per-account import mapping.
`fieldMappings` maps a logical field to an optional CSV header name;
`activityMappings` is an ordered association list (JS object insertion
order, as iterated by `Object.entries`) from internal activity type to
an optional list of raw CSV activity-type patterns; `symbolMappings`
maps a raw ticker to an optional canonical ticker.  Activity types are
embedded as strings since the source casts raw strings into the
`ActivityType` type. -/
structure ImportMapping where
  accountId : String
  fieldMappings : ImportFormat → Option String
  activityMappings : List (String × Option (List String))
  symbolMappings : String → Option String

/-- The transformed import record (`ActivityImport`).  `quantity` and
`unitPrice` are `JSNum` (`none` = `NaN`); `date`, `currency` and
`amount` use `none` for JS `undefined` (they are never `NaN`: `amount`
is filtered through `|| undefined`). -/
structure ActivityImport where
  date : Option String
  assetId : String
  symbol : String
  activityType : String
  quantity : JSNum
  unitPrice : JSNum
  currency : Option String
  fee : ℚ
  amount : Option ℚ
  accountId : String
  isValid : Bool
  isDraft : Bool
  comment : String
deriving DecidableEq

/-- `getMappedValue(row, field)` from `ActivityImportForm`:
`headers.indexOf(mapping.fieldMappings[field] || '')`; `-1` yields
`''`; otherwise `row[columnIndex]`, which is `undefined` (`none`) when
the row is shorter than the index. -/
def getMappedValue (headers : List String) (fieldMappings : ImportFormat → Option String)
    (row : List String) (field : ImportFormat) : Option String :=
  match headers.indexOf? ((fieldMappings field).getD "") with
  | none => some ""
  | some i => row[i]?

/-- One entry of `activityMappings` matches: `csvTypes?.some(mappedType =>
normalizedCsvType.startsWith(mappedType.trim().toUpperCase()))`, with
optional chaining making an absent pattern list match nothing. -/
def entryMatches (normalizedCsvType : String) (csvTypes : Option (List String)) : Bool :=
  match csvTypes with
  | none => false
  | some ts => ts.any (fun mappedType => jsStartsWith normalizedCsvType (jsToUpper (jsTrim mappedType)))

/-- The body of `getMappedActivityType` after field resolution: normalize
the raw CSV type, scan `Object.entries(mapping.activityMappings)` in
order, return the first internal type with a matching pattern, else
fall back to the original raw value. -/
def getMappedActivityType (activityMappings : List (String × Option (List String)))
    (csvType : String) : String :=
  match activityMappings.find? (fun e => entryMatches (jsToUpper (jsTrim csvType)) e.2) with
  | some e => e.1
  | none => csvType

/-- `parseFloat(rawAmount) || undefined` guarded by `if (rawAmount)`:
an `undefined` or empty cell leaves `amount` undefined, and a cell
parsing to `NaN` or `0` is coerced to `undefined` by `|| undefined`. -/
def amountFromRaw (pf : String → JSNum) (rawAmount : Option String) : Option ℚ :=
  match rawAmount with
  | none => none
  | some s =>
    if s = "" then none
    else
      match pf s with
      | none => none
      | some q => if q = 0 then none else some q

/-- `mapping.symbolMappings[rawSymbol] || rawSymbol`: an absent or
empty-string mapping entry falls back to the raw (trimmed) symbol. -/
def resolveSymbol (symbolMappings : String → Option String) (rawSymbol : String) : String :=
  match symbolMappings rawSymbol with
  | none => rawSymbol
  | some m => if m = "" then rawSymbol else m

/-- `getMappedValue(row, Currency) || accounts?.find(a => a.id ===
mapping.accountId)?.currency`. -/
def resolveCurrency (cell : Option String) (accounts : Option (List Account))
    (accountId : String) : Option String :=
  let fallback := (accounts.bind (fun as => as.find? (fun a => a.id == accountId))).map Account.currency
  match cell with
  | none => fallback
  | some c => if c = "" then fallback else some c

/-- The amount of a cash-style row as the source computes it: the
directly supplied amount when it survives `amountFromRaw`, otherwise
`(parseFloat(Quantity) || 1) * (parseFloat(UnitPrice) || 0)`. -/
def cashAmount (pf : String → JSNum) (fieldMappings : ImportFormat → Option String)
    (headers : List String) (row : List String) : ℚ :=
  match amountFromRaw pf (getMappedValue headers fieldMappings row ImportFormat.Amount) with
  | some a => a
  | none =>
    jsOr (jsParseFloat pf (getMappedValue headers fieldMappings row ImportFormat.Quantity)) 1
      * jsOr (jsParseFloat pf (getMappedValue headers fieldMappings row ImportFormat.UnitPrice)) 0

/-- The per-row transformation inside `handleImport` (the body of
`csvData.slice(1).map(...)`).  Returns `none` when the JS code throws:
`.trim()` is called on the resolved ActivityType cell (inside
`getMappedActivityType`) and on the resolved Symbol cell, and throws a
`TypeError` when the resolved value is `undefined`. -/
def transformRow (pf : String → JSNum) (isCashActivity : String → Bool)
    (mapping : ImportMapping) (headers : List String) (accounts : Option (List Account))
    (row : List String) : Option ActivityImport := do
  let csvType ← getMappedValue headers mapping.fieldMappings row ImportFormat.ActivityType
  let activityType := getMappedActivityType mapping.activityMappings csvType
  let amount0 := amountFromRaw pf (getMappedValue headers mapping.fieldMappings row ImportFormat.Amount)
  let qpa : JSNum × JSNum × Option ℚ :=
    if isCashActivity activityType then
      let a : ℚ :=
        match amount0 with
        | some a => a
        | none =>
          jsOr (jsParseFloat pf (getMappedValue headers mapping.fieldMappings row ImportFormat.Quantity)) 1
            * jsOr (jsParseFloat pf (getMappedValue headers mapping.fieldMappings row ImportFormat.UnitPrice)) 0
      -- quantity = 1; unitPrice = amount || 0 (equal to the derived amount,
      -- since || 0 only rewrites 0 to 0); amount is now always defined
      (some 1, some a, some a)
    else
      (jsParseFloat pf (getMappedValue headers mapping.fieldMappings row ImportFormat.Quantity),
       jsParseFloat pf (getMappedValue headers mapping.fieldMappings row ImportFormat.UnitPrice),
       amount0)
  let currency := resolveCurrency (getMappedValue headers mapping.fieldMappings row ImportFormat.Currency)
    accounts mapping.accountId
  let rawSymbolCell ← getMappedValue headers mapping.fieldMappings row ImportFormat.Symbol
  let symbol := resolveSymbol mapping.symbolMappings (jsTrim rawSymbolCell)
  some
    { date := getMappedValue headers mapping.fieldMappings row ImportFormat.Date
      assetId := symbol
      symbol := symbol
      activityType := activityType
      quantity := qpa.1
      unitPrice := qpa.2.1
      currency := currency
      fee := jsOr (jsParseFloat pf (getMappedValue headers mapping.fieldMappings row ImportFormat.Fee)) 0
      amount := qpa.2.2
      accountId := mapping.accountId
      isValid := false
      isDraft := true
      comment := "" }

/-- Outcome of one `handleImport` invocation. -/
inductive ImportAction where
  | transformFailed
  | validationFailed (errors : List (String × List String))
  | submitted (data : ImportMapping) (activitiesToImport : List ActivityImport)

/-- `handleImport`: transform every data row (`csvData.slice(1)`; a
thrown transformation error is caught by the surrounding `try`), run
`validateActivities`, and either record the non-empty error report and
return, or invoke `saveAndCheckImportMutation.mutateAsync` with the
mapping and the transformed activities.  The validation report is a JS
object embedded as its entry list (`Object.keys(...).length > 0` is
non-emptiness of that list). -/
def handleImport (pf : String → JSNum) (isCashActivity : String → Bool)
    (validateActivities : List ActivityImport → List (String × List String))
    (mapping : ImportMapping) (headers : List String) (accounts : Option (List Account))
    (csvData : List (List String)) : ImportAction :=
  match (csvData.drop 1).mapM (transformRow pf isCashActivity mapping headers accounts) with
  | none => ImportAction.transformFailed
  | some activitiesToImport =>
    let validationErrors := validateActivities activitiesToImport
    if validationErrors.isEmpty then ImportAction.submitted mapping activitiesToImport
    else ImportAction.validationFailed validationErrors

/-- The two external calls issued by `saveAndCheckImportMutation`'s
`mutationFn`, in the order they are awaited. -/
inductive MutationStep where
  | saveMapping
  | checkImport
deriving DecidableEq

/-- `saveAndCheckImportMutation.mutationFn` from
`useActivityImportMutations`: `await saveAccountImportMapping(data)`
then `return await checkActivitiesImport(...)`.  The external calls
are embedded by their results (`Except.error` = rejected promise);
the returned trace lists the calls actually issued, in order.  A
rejected `await` aborts the function, so a save failure issues no
check call. -/
def saveAndCheckMutationFn (saveResult : Except String Unit)
    (checkResult : Except String (List ActivityImport)) :
    List MutationStep × Except String (List ActivityImport) :=
  match saveResult with
  | Except.error e => ([MutationStep.saveMapping], Except.error e)
  | Except.ok _ =>
    match checkResult with
    | Except.error e => ([MutationStep.saveMapping, MutationStep.checkImport], Except.error e)
    | Except.ok r => ([MutationStep.saveMapping, MutationStep.checkImport], Except.ok r)

/-- The mutation's `onError` handler: `onError?.(\x7bImport failed:
$\x7berror.message\x7d\x7d)`.  Returns the message passed to the
caller's error callback, `none` when the mutation succeeded and the
error callback is not invoked. -/
def surfacedError (result : Except String (List ActivityImport)) : Option String :=
  match result with
  | Except.error e => some ("Import failed: " ++ e)
  | Except.ok _ => none

/-- A simple exact decimal parser (optional sign, digits, optional
fractional part), used to instantiate the `parseFloat` parameter in
witnesses; it agrees with JS `parseFloat` on such plain decimal
strings and returns `none` (`NaN`) elsewhere. -/
def natOfDigits (cs : List Char) : ℕ :=
  cs.foldl (fun acc c => acc * 10 + (c.toNat - 48)) 0

/-- See `natOfDigits`. -/
def parseDec (s : String) : Option ℚ :=
  let signed : Bool × List Char :=
    match s.data with
    | '-' :: rest => (true, rest)
    | cs => (false, cs)
  let intPart := signed.2.takeWhile Char.isDigit
  let rest := signed.2.dropWhile Char.isDigit
  if intPart.isEmpty then none
  else
    let val : Option ℚ :=
      match rest with
      | [] => some (natOfDigits intPart : ℚ)
      | '.' :: fracPart =>
        if fracPart.isEmpty || !(fracPart.all Char.isDigit) then none
        else some ((natOfDigits intPart : ℚ) + (natOfDigits fracPart : ℚ) / (10 : ℚ) ^ fracPart.length)
      | _ => none
    val.map (fun v => if signed.1 then -v else v)

/-- The record produced by `transformRow` once the ActivityType and
Symbol cells are known to resolve to actual strings (no exception). -/
def recordOf (pf : String → JSNum) (isCashActivity : String → Bool)
    (mapping : ImportMapping) (headers : List String) (accounts : Option (List Account))
    (row : List String) (csvType symCell : String) : ActivityImport :=
  let activityType := getMappedActivityType mapping.activityMappings csvType
  let cash := isCashActivity activityType
  let symbol := resolveSymbol mapping.symbolMappings (jsTrim symCell)
  { date := getMappedValue headers mapping.fieldMappings row ImportFormat.Date
    assetId := symbol
    symbol := symbol
    activityType := activityType
    quantity :=
      if cash then some 1
      else jsParseFloat pf (getMappedValue headers mapping.fieldMappings row ImportFormat.Quantity)
    unitPrice :=
      if cash then some (cashAmount pf mapping.fieldMappings headers row)
      else jsParseFloat pf (getMappedValue headers mapping.fieldMappings row ImportFormat.UnitPrice)
    currency := resolveCurrency (getMappedValue headers mapping.fieldMappings row ImportFormat.Currency)
      accounts mapping.accountId
    fee := jsOr (jsParseFloat pf (getMappedValue headers mapping.fieldMappings row ImportFormat.Fee)) 0
    amount :=
      if cash then some (cashAmount pf mapping.fieldMappings headers row)
      else amountFromRaw pf (getMappedValue headers mapping.fieldMappings row ImportFormat.Amount)
    accountId := mapping.accountId
    isValid := false
    isDraft := true
    comment := "" }

/-- Concrete field mapping (Type/Symbol/Qty/Price) for witnesses and
counterexamples. -/
def fmC2 : ImportFormat → Option String
  | ImportFormat.ActivityType => some "Type"
  | ImportFormat.Symbol => some "Symbol"
  | ImportFormat.Quantity => some "Qty"
  | ImportFormat.UnitPrice => some "Price"
  | _ => none

/-- Concrete mapping whose Quantity cell will hold `"0"`. -/
def mapC2 : ImportMapping :=
  { accountId := "a1", fieldMappings := fmC2,
    activityMappings := [("DEPOSIT", some ["DEP"])],
    symbolMappings := fun _ => none }

/-- Concrete field mapping (Type/Symbol/Amount) with a directly
supplied amount. -/
def fmC2w : ImportFormat → Option String
  | ImportFormat.ActivityType => some "Type"
  | ImportFormat.Symbol => some "Symbol"
  | ImportFormat.Amount => some "Amount"
  | _ => none

/-- Concrete mapping with a mapped Amount column. -/
def mapC2w : ImportMapping :=
  { accountId := "a1", fieldMappings := fmC2w,
    activityMappings := [("DEPOSIT", some ["DEP"])],
    symbolMappings := fun _ => none }

/-- The record for the cash-with-amount witness row. -/
def recC2w : ActivityImport :=
  recordOf parseDec (fun _ => true) mapC2w ["Type", "Symbol", "Amount"] none
    ["DEP", "CASH", "500"] "DEP" "CASH"

/-- The record for the position-style witness row (unparsable Qty). -/
def recC6w : ActivityImport :=
  recordOf parseDec (fun _ => false) mapC2 ["Type", "Symbol", "Qty", "Price"] none
    ["BUY", "AAPL", "abc", "7"] "BUY" "AAPL"

/-- Concrete mapping whose symbol-mapping entry for `"A"` is the empty
string. -/
def mapC8 : ImportMapping :=
  { accountId := "a1",
    fieldMappings := fun f =>
      match f with
      | ImportFormat.ActivityType => some "Type"
      | ImportFormat.Symbol => some "Symbol"
      | _ => none,
    activityMappings := [],
    symbolMappings := fun s => if s = "A" then some "" else none }

/-- Concrete mapping with a non-empty symbol remapping. -/
def mapC8w : ImportMapping :=
  { accountId := "a1",
    fieldMappings := fun f =>
      match f with
      | ImportFormat.ActivityType => some "Type"
      | ImportFormat.Symbol => some "Symbol"
      | _ => none,
    activityMappings := [],
    symbolMappings := fun s => if s = "aapl" then some "AAPL.US" else none }

/-- The record for the symbol-remapping witness row. -/
def recC8w : ActivityImport :=
  recordOf parseDec (fun _ => false) mapC8w ["Type", "Symbol"] none
    ["BUY", " aapl "] "BUY" " aapl "

/-- Field mapping covering Type/Symbol/Qty/Price/Amount. -/
def fmC9 : ImportFormat → Option String
  | ImportFormat.ActivityType => some "Type"
  | ImportFormat.Symbol => some "Symbol"
  | ImportFormat.Quantity => some "Qty"
  | ImportFormat.UnitPrice => some "Price"
  | ImportFormat.Amount => some "Amount"
  | _ => none

/-- Concrete mapping for the zero-amount rows. -/
def mapC9 : ImportMapping :=
  { accountId := "a1", fieldMappings := fmC9,
    activityMappings := [("DEPOSIT", some ["DEP"])],
    symbolMappings := fun _ => none }

/-- Headers of the zero-amount witness dataset. -/
def hdrsC9 : List String := ["Type", "Symbol", "Qty", "Price", "Amount"]

/-- A row whose Amount cell is the string `"0"`. -/
def rowC9 : List String := ["DEP", "CASH", "2", "5", "0"]

/-- Cash-style record for the zero-amount row. -/
def recC9c : ActivityImport :=
  recordOf parseDec (fun _ => true) mapC9 hdrsC9 none rowC9 "DEP" "CASH"

/-- Position-style record for the zero-amount row. -/
def recC9p : ActivityImport :=
  recordOf parseDec (fun _ => false) mapC9 hdrsC9 none rowC9 "DEP" "CASH"

lemma transformRow_eq_some (pf : String → JSNum) (isCashActivity : String → Bool)
    (mapping : ImportMapping) (headers : List String) (accounts : Option (List Account))
    (row : List String) (csvType symCell : String)
    (hT : getMappedValue headers mapping.fieldMappings row ImportFormat.ActivityType = some csvType)
    (hS : getMappedValue headers mapping.fieldMappings row ImportFormat.Symbol = some symCell) :
    transformRow pf isCashActivity mapping headers accounts row =
      some (recordOf pf isCashActivity mapping headers accounts row csvType symCell) := by
  unfold transformRow recordOf
  rw [hT, hS]
  simp only [Option.bind_some, cashAmount]
  cases hA : amountFromRaw pf (getMappedValue headers mapping.fieldMappings row ImportFormat.Amount) with
  | none => cases hc : isCashActivity (getMappedActivityType mapping.activityMappings csvType) <;> simp [hc, hA]
  | some a => cases hc : isCashActivity (getMappedActivityType mapping.activityMappings csvType) <;> simp [hc, hA]

lemma transformRow_inv (pf : String → JSNum) (isCashActivity : String → Bool)
    (mapping : ImportMapping) (headers : List String) (accounts : Option (List Account))
    (row : List String) (rec : ActivityImport)
    (h : transformRow pf isCashActivity mapping headers accounts row = some rec) :
    ∃ csvType symCell,
      getMappedValue headers mapping.fieldMappings row ImportFormat.ActivityType = some csvType ∧
      getMappedValue headers mapping.fieldMappings row ImportFormat.Symbol = some symCell ∧
      rec = recordOf pf isCashActivity mapping headers accounts row csvType symCell := by
  cases hT : getMappedValue headers mapping.fieldMappings row ImportFormat.ActivityType with
  | none => rw [transformRow, hT] at h; simp at h
  | some csvType =>
    cases hS : getMappedValue headers mapping.fieldMappings row ImportFormat.Symbol with
    | none =>
      rw [transformRow, hT] at h
      simp only [Option.bind_some] at h
      rw [hS] at h
      simp at h
    | some symCell =>
      refine ⟨csvType, symCell, rfl, rfl, ?_⟩
      have := transformRow_eq_some pf isCashActivity mapping headers accounts row csvType symCell hT hS
      rw [this] at h
      exact (Option.some_inj.mp h).symm

/-- C3: the matcher normalizes the input, normalizes every configured
pattern, declares a match when the normalized input starts with the
normalized pattern, and returns the first internal activity type, in
mapping iteration order, whose entry has any matching pattern. -/
theorem getMappedActivityType_first_match (csvType : String) :
    (∀ ts : List String,
      (entryMatches (jsToUpper (jsTrim csvType)) (some ts) = true ↔
        ∃ p ∈ ts, jsStartsWith (jsToUpper (jsTrim csvType)) (jsToUpper (jsTrim p)) = true))
    ∧ ∀ (ams pre : List (String × Option (List String))) (e : String × Option (List String))
        (post : List (String × Option (List String))),
        ams = pre ++ e :: post →
        (∀ e' ∈ pre, entryMatches (jsToUpper (jsTrim csvType)) e'.2 = false) →
        entryMatches (jsToUpper (jsTrim csvType)) e.2 = true →
        getMappedActivityType ams csvType = e.1 := by
  constructor
  · intro ts
    simp [entryMatches, List.any_eq_true]
  · intro ams pre e post hsplit hpre he
    subst hsplit
    unfold getMappedActivityType
    rw [List.find?_append]
    have hnone : (pre.find? (fun e' => entryMatches (jsToUpper (jsTrim csvType)) e'.2)) = none := by
      rw [List.find?_eq_none]
      intro x hx
      simp [hpre x hx]
    rw [hnone, Option.none_or,
      List.find?_cons_of_pos (p := fun e' => entryMatches (jsToUpper (jsTrim csvType)) e'.2) post he]

/-- Witness for C3 at a concrete input: the first matching entry wins
even when a later entry also matches, tolerating a vendor suffix. -/
theorem getMappedActivityType_first_match_witness :
    getMappedActivityType [("DIVIDEND", some ["DIV"]), ("BUY", some ["BUY"]), ("SELL", some ["BUY"])]
        " buy - market " = "BUY" :=
  (getMappedActivityType_first_match " buy - market ").2
    [("DIVIDEND", some ["DIV"]), ("BUY", some ["BUY"]), ("SELL", some ["BUY"])]
    [("DIVIDEND", some ["DIV"])] ("BUY", some ["BUY"]) [("SELL", some ["BUY"])]
    rfl (by decide) (by decide)

/-- C1 (counterexample): with no matching pattern the matcher returns
the original raw string, not its trimmed-uppercased normalization:
on raw type `"buy "` (normalized `"BUY"`, matching no pattern of the
mapping) it returns `"buy "`, which differs from `"BUY"`. -/
theorem getMappedActivityType_fallback_cex :
    getMappedActivityType [("DIVIDEND", some ["DIV"])] "buy " = "buy "
    ∧ jsToUpper (jsTrim "buy ") = "BUY"
    ∧ ("buy " : String) ≠ "BUY" := by
  refine ⟨by decide, by decide, by decide⟩

/-- C1 (amended): when no configured pattern prefix-matches the
trimmed-uppercased input, the matcher returns the raw string unchanged
(cast as an activity type), without normalizing it. -/
theorem getMappedActivityType_fallback_raw (ams : List (String × Option (List String)))
    (csvType : String)
    (h : ∀ e ∈ ams, entryMatches (jsToUpper (jsTrim csvType)) e.2 = false) :
    getMappedActivityType ams csvType = csvType := by
  unfold getMappedActivityType
  have hnone : (ams.find? (fun e => entryMatches (jsToUpper (jsTrim csvType)) e.2)) = none := by
    rw [List.find?_eq_none]
    intro x hx
    simp [h x hx]
  rw [hnone]

/-- Witness for the amended C1 at a concrete input. -/
theorem getMappedActivityType_fallback_raw_witness :
    getMappedActivityType [("DIVIDEND", some ["DIV"])] "buy " = "buy " :=
  getMappedActivityType_fallback_raw [("DIVIDEND", some ["DIV"])] "buy " (by decide)

/-- C7 (counterexample): the resolver looks up
`mapping.fieldMappings[field] || ''` in `headers`, so for an unmapped
field whose header list contains the empty string it returns the cell
at the empty header's index instead of `""`. -/
theorem getMappedValue_unmapped_cex :
    getMappedValue [""] (fun _ => none) ["X"] ImportFormat.Date = some "X"
    ∧ (fun _ => (none : Option String)) ImportFormat.Date = none
    ∧ (some "X" : Option String) ≠ some "" := by
  refine ⟨by decide, rfl, by decide⟩

/-- C7 (amended): the resolver returns `""` whenever the effective
lookup key — the configured header, or the empty string when the field
is unmapped — does not occur in the header list, regardless of the
row; in these cases it is total (never throws). -/
theorem getMappedValue_missing_header (headers : List String)
    (fieldMappings : ImportFormat → Option String) (row : List String) (field : ImportFormat)
    (h : ((fieldMappings field).getD "") ∉ headers) :
    getMappedValue headers fieldMappings row field = some "" := by
  unfold getMappedValue
  have : headers.indexOf? ((fieldMappings field).getD "") = none := by
    rw [List.indexOf?_eq_none_iff]
    intro x hx
    simp only [beq_iff_eq]
    intro hEq
    exact h (hEq ▸ hx)
  rw [this]

/-- Witness for the amended C7: an unmapped field, and a mapped field
whose header disappeared from the header list, both resolve to `""`. -/
theorem getMappedValue_missing_header_witness :
    getMappedValue ["Date", "Ticker"] (fun _ => some "Gone") ["2024-01-05", "AAPL"]
        ImportFormat.Symbol = some ""
    ∧ getMappedValue ["Date", "Ticker"] (fun _ => none) ["2024-01-05", "AAPL"]
        ImportFormat.Fee = some "" :=
  ⟨getMappedValue_missing_header ["Date", "Ticker"] (fun _ => some "Gone")
      ["2024-01-05", "AAPL"] ImportFormat.Symbol (by decide),
   getMappedValue_missing_header ["Date", "Ticker"] (fun _ => none)
      ["2024-01-05", "AAPL"] ImportFormat.Fee (by decide)⟩

/-- C10: when the mapped header occurs in the header list at an index
beyond the row's length, the resolver returns `undefined` (not `""`),
and — the Symbol resolution step calling `.trim()` on that value —
transforming such a row throws instead of degrading to a missing
value. -/
theorem getMappedValue_short_row_undefined (headers : List String)
    (fieldMappings : ImportFormat → Option String) (row : List String) (field : ImportFormat)
    (hdr : String) (i : ℕ)
    (hm : fieldMappings field = some hdr) (hi : headers.indexOf? hdr = some i)
    (hlen : row.length < i) :
    getMappedValue headers fieldMappings row field = none
    ∧ ∀ (pf : String → JSNum) (isCashActivity : String → Bool) (mapping : ImportMapping)
        (accounts : Option (List Account)),
        mapping.fieldMappings = fieldMappings → field = ImportFormat.Symbol →
        transformRow pf isCashActivity mapping headers accounts row = none := by
  have hval : getMappedValue headers fieldMappings row field = none := by
    unfold getMappedValue
    rw [hm]
    simp only [Option.getD_some]
    rw [hi]
    exact List.getElem?_eq_none (Nat.le_of_lt hlen)
  refine ⟨hval, ?_⟩
  intro pf isCashActivity mapping accounts hfm hfield
  subst hfield
  cases hT : getMappedValue headers mapping.fieldMappings row ImportFormat.ActivityType with
  | none => rw [transformRow, hT]; rfl
  | some csvType =>
    rw [transformRow, hT]
    simp only [Option.bind_some]
    rw [hfm, hval]
    rfl

/-- Witness for C10 at a concrete input: header `"Ticker"` sits at
index 1 but the row has no cells, so resolution yields `undefined` and
the transformation throws. -/
theorem getMappedValue_short_row_undefined_witness :
    getMappedValue ["Date", "Ticker"] (fun _ => some "Ticker") [] ImportFormat.Symbol = none
    ∧ transformRow parseDec (fun _ => true)
        { accountId := "a1", fieldMappings := fun _ => some "Ticker",
          activityMappings := [], symbolMappings := fun _ => none }
        ["Date", "Ticker"] none [] = none := by
  have h := getMappedValue_short_row_undefined ["Date", "Ticker"] (fun _ => some "Ticker")
    [] ImportFormat.Symbol "Ticker" 1 rfl (by decide) (by decide)
  exact ⟨h.1, h.2 parseDec (fun _ => true)
    { accountId := "a1", fieldMappings := fun _ => some "Ticker",
      activityMappings := [], symbolMappings := fun _ => none } none rfl rfl⟩

/-- C2 (counterexample): on a cash-style row with no mapped Amount,
Quantity `"0"` and UnitPrice `"5"`, Quantity parses successfully to
`0`, yet `parseFloat(...) || 1` replaces it by `1`, so the record gets
`unitPrice = amount = 5`; the claim's derivation (defaulting only on
parse failure) would give `amount = 0 * 5 = 0` and `unitPrice = 0`. -/
theorem transformRow_cash_quantity_zero_cex :
    (transformRow parseDec (fun _ => true) mapC2 ["Type", "Symbol", "Qty", "Price"] none
        ["DEP", "CASH", "0", "5"]).map (fun r => (r.quantity, r.unitPrice, r.amount))
      = some (some 1, some 5, some 5)
    ∧ parseDec "0" = some 0
    ∧ parseDec "5" = some 5
    ∧ (0 : ℚ) * 5 = 0
    ∧ (5 : ℚ) ≠ 0 := by
  have hT : getMappedValue ["Type", "Symbol", "Qty", "Price"] mapC2.fieldMappings
      ["DEP", "CASH", "0", "5"] ImportFormat.ActivityType = some "DEP" := by decide
  have hS : getMappedValue ["Type", "Symbol", "Qty", "Price"] mapC2.fieldMappings
      ["DEP", "CASH", "0", "5"] ImportFormat.Symbol = some "CASH" := by decide
  have hq : getMappedValue ["Type", "Symbol", "Qty", "Price"] mapC2.fieldMappings
      ["DEP", "CASH", "0", "5"] ImportFormat.Quantity = some "0" := by decide
  have hp : getMappedValue ["Type", "Symbol", "Qty", "Price"] mapC2.fieldMappings
      ["DEP", "CASH", "0", "5"] ImportFormat.UnitPrice = some "5" := by decide
  have hAF : amountFromRaw parseDec (getMappedValue ["Type", "Symbol", "Qty", "Price"]
      mapC2.fieldMappings ["DEP", "CASH", "0", "5"] ImportFormat.Amount) = none := by decide
  have h0 : parseDec "0" = some 0 := by decide
  have h5 : parseDec "5" = some 5 := by decide
  rw [transformRow_eq_some parseDec (fun _ => true) mapC2 _ none _ "DEP" "CASH" hT hS]
  refine ⟨?_, h0, h5, by norm_num, by norm_num⟩
  simp only [Option.map_some']
  simp [recordOf, cashAmount, hAF, hq, hp, jsParseFloat, h0, h5, jsOr]

/-- C2 (amended): for every row whose matched activity type is
cash-style, the record satisfies `quantity = 1` and
`unitPrice = amount`, where `amount` is the value parsed from the
mapped Amount field when that parses to a nonzero number, and is
otherwise derived as `quantity × unitPrice` with quantity defaulting
to 1 when its parse fails **or yields 0** (JS `|| 1`), and unitPrice
defaulting to 0 on parse failure (`|| 0`) — as captured by
`cashAmount`. -/
theorem transformRow_cash_normalized (pf : String → JSNum) (isCashActivity : String → Bool)
    (mapping : ImportMapping) (headers : List String) (accounts : Option (List Account))
    (row : List String) (rec : ActivityImport)
    (h : transformRow pf isCashActivity mapping headers accounts row = some rec)
    (hc : isCashActivity rec.activityType = true) :
    rec.quantity = some 1
    ∧ rec.unitPrice = some (cashAmount pf mapping.fieldMappings headers row)
    ∧ rec.amount = some (cashAmount pf mapping.fieldMappings headers row) := by
  obtain ⟨csvType, symCell, hT, hS, hrec⟩ :=
    transformRow_inv pf isCashActivity mapping headers accounts row rec h
  subst hrec
  simp only [recordOf] at hc ⊢
  simp [hc]

/-- Witness for the amended C2: a cash row with a directly supplied
amount `"500"` yields `quantity = 1`, `unitPrice = amount = 500`. -/
theorem transformRow_cash_normalized_witness :
    transformRow parseDec (fun _ => true) mapC2w ["Type", "Symbol", "Amount"] none
        ["DEP", "CASH", "500"] = some recC2w
    ∧ recC2w.quantity = some 1
    ∧ recC2w.unitPrice
        = some (cashAmount parseDec mapC2w.fieldMappings ["Type", "Symbol", "Amount"]
            ["DEP", "CASH", "500"])
    ∧ recC2w.amount
        = some (cashAmount parseDec mapC2w.fieldMappings ["Type", "Symbol", "Amount"]
            ["DEP", "CASH", "500"])
    ∧ cashAmount parseDec mapC2w.fieldMappings ["Type", "Symbol", "Amount"]
        ["DEP", "CASH", "500"] = 500 := by
  have h : transformRow parseDec (fun _ => true) mapC2w ["Type", "Symbol", "Amount"] none
      ["DEP", "CASH", "500"] = some recC2w :=
    transformRow_eq_some parseDec (fun _ => true) mapC2w _ none _ "DEP" "CASH"
      (by decide) (by decide)
  have hc := transformRow_cash_normalized parseDec (fun _ => true) mapC2w
    ["Type", "Symbol", "Amount"] none ["DEP", "CASH", "500"] recC2w h rfl
  exact ⟨h, hc.1, hc.2.1, hc.2.2, by decide⟩

/-- C6: for every row whose matched activity type is position-style,
`quantity` and `unitPrice` are exactly the parsed mapped-field values,
with no defaulting: an unparsable cell (`pf s = none`, i.e. `NaN`)
stays `NaN` in the record. -/
theorem transformRow_position_exact (pf : String → JSNum) (isCashActivity : String → Bool)
    (mapping : ImportMapping) (headers : List String) (accounts : Option (List Account))
    (row : List String) (rec : ActivityImport)
    (h : transformRow pf isCashActivity mapping headers accounts row = some rec)
    (hc : isCashActivity rec.activityType = false) :
    rec.quantity = jsParseFloat pf (getMappedValue headers mapping.fieldMappings row ImportFormat.Quantity)
    ∧ rec.unitPrice = jsParseFloat pf (getMappedValue headers mapping.fieldMappings row ImportFormat.UnitPrice)
    ∧ (∀ s, getMappedValue headers mapping.fieldMappings row ImportFormat.Quantity = some s →
        pf s = none → rec.quantity = none)
    ∧ (∀ s, getMappedValue headers mapping.fieldMappings row ImportFormat.UnitPrice = some s →
        pf s = none → rec.unitPrice = none) := by
  obtain ⟨csvType, symCell, hT, hS, hrec⟩ :=
    transformRow_inv pf isCashActivity mapping headers accounts row rec h
  subst hrec
  simp only [recordOf] at hc ⊢
  refine ⟨by simp [hc], by simp [hc], ?_, ?_⟩
  · intro s hs hn
    simp [hc, hs, hn, jsParseFloat]
  · intro s hs hn
    simp [hc, hs, hn, jsParseFloat]

/-- Witness for C6: a position-style row with Quantity `"abc"` and
UnitPrice `"7"` keeps `quantity = NaN` (`none`) and `unitPrice = 7`. -/
theorem transformRow_position_exact_witness :
    transformRow parseDec (fun _ => false) mapC2 ["Type", "Symbol", "Qty", "Price"] none
        ["BUY", "AAPL", "abc", "7"] = some recC6w
    ∧ recC6w.quantity
        = jsParseFloat parseDec (getMappedValue ["Type", "Symbol", "Qty", "Price"]
            mapC2.fieldMappings ["BUY", "AAPL", "abc", "7"] ImportFormat.Quantity)
    ∧ recC6w.quantity = none
    ∧ recC6w.unitPrice = some 7 := by
  have h : transformRow parseDec (fun _ => false) mapC2 ["Type", "Symbol", "Qty", "Price"] none
      ["BUY", "AAPL", "abc", "7"] = some recC6w :=
    transformRow_eq_some parseDec (fun _ => false) mapC2 _ none _ "BUY" "AAPL"
      (by decide) (by decide)
  have hp := transformRow_position_exact parseDec (fun _ => false) mapC2
    ["Type", "Symbol", "Qty", "Price"] none ["BUY", "AAPL", "abc", "7"] recC6w h rfl
  exact ⟨h, hp.1, hp.2.2.1 "abc" (by decide) (by decide), by decide⟩

/-- C8 (counterexample): when the symbol-mapping entry for the trimmed
raw symbol is the empty string, `symbolMappings[raw] || raw` ignores
the entry (empty string is falsy), so the record keeps the raw symbol
`"A"` although an entry (`""`) exists for it. -/
theorem transformRow_symbol_empty_entry_cex :
    (transformRow parseDec (fun _ => false) mapC8 ["Type", "Symbol"] none ["BUY", "A"]).map
        (fun r => (r.symbol, r.assetId)) = some ("A", "A")
    ∧ mapC8.symbolMappings (jsTrim "A") = some ""
    ∧ ("A" : String) ≠ "" := by
  have hT : getMappedValue ["Type", "Symbol"] mapC8.fieldMappings ["BUY", "A"]
      ImportFormat.ActivityType = some "BUY" := by decide
  have hS : getMappedValue ["Type", "Symbol"] mapC8.fieldMappings ["BUY", "A"]
      ImportFormat.Symbol = some "A" := by decide
  rw [transformRow_eq_some parseDec (fun _ => false) mapC8 _ none _ "BUY" "A" hT hS]
  refine ⟨?_, by decide, by decide⟩
  simp only [Option.map_some']
  simp [recordOf, resolveSymbol, mapC8, jsTrim]

/-- C8 (amended): the record's symbol is the trimmed raw Symbol cell,
replaced by its `symbolMappings` entry when a **non-empty** entry
exists for that trimmed value (an empty-string entry is ignored by
`|| rawSymbol`), and `assetId` always equals `symbol`; this is
`resolveSymbol`. -/
theorem transformRow_symbol_resolved (pf : String → JSNum) (isCashActivity : String → Bool)
    (mapping : ImportMapping) (headers : List String) (accounts : Option (List Account))
    (row : List String) (rec : ActivityImport)
    (h : transformRow pf isCashActivity mapping headers accounts row = some rec) :
    ∃ symCell,
      getMappedValue headers mapping.fieldMappings row ImportFormat.Symbol = some symCell
      ∧ rec.symbol = resolveSymbol mapping.symbolMappings (jsTrim symCell)
      ∧ rec.assetId = rec.symbol := by
  obtain ⟨csvType, symCell, hT, hS, hrec⟩ :=
    transformRow_inv pf isCashActivity mapping headers accounts row rec h
  refine ⟨symCell, hS, ?_, ?_⟩ <;> subst hrec <;> simp [recordOf]

/-- Witness for the amended C8: the raw cell `" aapl "` is trimmed to
`"aapl"` and remapped to `"AAPL.US"`, used for both symbol and
assetId. -/
theorem transformRow_symbol_resolved_witness :
    transformRow parseDec (fun _ => false) mapC8w ["Type", "Symbol"] none ["BUY", " aapl "]
      = some recC8w
    ∧ recC8w.symbol = resolveSymbol mapC8w.symbolMappings (jsTrim " aapl ")
    ∧ recC8w.assetId = recC8w.symbol
    ∧ recC8w.symbol = "AAPL.US" := by
  have h : transformRow parseDec (fun _ => false) mapC8w ["Type", "Symbol"] none ["BUY", " aapl "]
      = some recC8w :=
    transformRow_eq_some parseDec (fun _ => false) mapC8w _ none _ "BUY" " aapl "
      (by decide) (by decide)
  obtain ⟨c, hc, h1, h2⟩ := transformRow_symbol_resolved parseDec (fun _ => false) mapC8w
    ["Type", "Symbol"] none ["BUY", " aapl "] recC8w h
  have hcc : c = " aapl " := by
    have hcell : (some c : Option String) = some " aapl " := by
      rw [← hc]; decide
    exact Option.some_inj.mp hcell
  subst hcc
  exact ⟨h, h1, h2, by decide⟩

/-- C9: a mapped Amount cell that parses to exactly `0` is treated as
absent (`parseFloat(rawAmount) || undefined` is `undefined`): a
cash-style row re-derives the amount as
`(parseFloat(Quantity) || 1) × (parseFloat(UnitPrice) || 0)` instead
of keeping the supplied zero, and a position-style row leaves the
record's amount `undefined` rather than `0`. -/
theorem transformRow_zero_amount_absent (pf : String → JSNum) (isCashActivity : String → Bool)
    (mapping : ImportMapping) (headers : List String) (accounts : Option (List Account))
    (row : List String) (rec : ActivityImport) (s : String)
    (hA : getMappedValue headers mapping.fieldMappings row ImportFormat.Amount = some s)
    (hs : s ≠ "") (h0 : pf s = some 0)
    (h : transformRow pf isCashActivity mapping headers accounts row = some rec) :
    (isCashActivity rec.activityType = true →
      rec.amount = some
        (jsOr (jsParseFloat pf (getMappedValue headers mapping.fieldMappings row ImportFormat.Quantity)) 1
          * jsOr (jsParseFloat pf (getMappedValue headers mapping.fieldMappings row ImportFormat.UnitPrice)) 0))
    ∧ (isCashActivity rec.activityType = false → rec.amount = none) := by
  have hAF : amountFromRaw pf (getMappedValue headers mapping.fieldMappings row ImportFormat.Amount)
      = none := by
    rw [hA]
    simp only [amountFromRaw]
    rw [if_neg hs, h0]
    simp
  obtain ⟨csvType, symCell, hT, hS, hrec⟩ :=
    transformRow_inv pf isCashActivity mapping headers accounts row rec h
  subst hrec
  constructor
  · intro hc
    simp only [recordOf] at hc ⊢
    simp only [hc, if_true]
    rw [cashAmount, hAF]
  · intro hc
    simp only [recordOf] at hc ⊢
    simp [hc, hAF]

/-- Witness for C9: the row `["DEP","CASH","2","5","0"]` with Amount
mapped to the `"0"` cell: as cash the amount is re-derived (2 × 5),
and as position-style it stays undefined. -/
theorem transformRow_zero_amount_absent_witness :
    parseDec "0" = some 0
    ∧ recC9c.amount = some
        (jsOr (jsParseFloat parseDec (getMappedValue hdrsC9 mapC9.fieldMappings rowC9 ImportFormat.Quantity)) 1
          * jsOr (jsParseFloat parseDec (getMappedValue hdrsC9 mapC9.fieldMappings rowC9 ImportFormat.UnitPrice)) 0)
    ∧ recC9p.amount = none := by
  have h1 := transformRow_zero_amount_absent parseDec (fun _ => true) mapC9 hdrsC9 none rowC9
    recC9c "0" (by decide) (by decide) (by decide)
    (transformRow_eq_some parseDec (fun _ => true) mapC9 hdrsC9 none rowC9 "DEP" "CASH"
      (by decide) (by decide))
  have h2 := transformRow_zero_amount_absent parseDec (fun _ => false) mapC9 hdrsC9 none rowC9
    recC9p "0" (by decide) (by decide) (by decide)
    (transformRow_eq_some parseDec (fun _ => false) mapC9 hdrsC9 none rowC9 "DEP" "CASH"
      (by decide) (by decide))
  exact ⟨by decide, h1.1 rfl, h2.2 rfl⟩

/-- C4: whenever the validation report over the transformed candidates
is non-empty, `handleImport` records the errors and returns; the
save-and-check mutation is never invoked (the outcome is not
`submitted`), so no mapping save, server-side check, or import is
attempted. -/
theorem handleImport_blocked_by_validation (pf : String → JSNum) (isCashActivity : String → Bool)
    (validateActivities : List ActivityImport → List (String × List String))
    (mapping : ImportMapping) (headers : List String) (accounts : Option (List Account))
    (csvData : List (List String)) (acts : List ActivityImport)
    (hT : (csvData.drop 1).mapM (transformRow pf isCashActivity mapping headers accounts) = some acts)
    (hE : validateActivities acts ≠ []) :
    handleImport pf isCashActivity validateActivities mapping headers accounts csvData
      = ImportAction.validationFailed (validateActivities acts)
    ∧ ∀ (m : ImportMapping) (a : List ActivityImport),
        handleImport pf isCashActivity validateActivities mapping headers accounts csvData
          ≠ ImportAction.submitted m a := by
  have h1 : handleImport pf isCashActivity validateActivities mapping headers accounts csvData
      = ImportAction.validationFailed (validateActivities acts) := by
    unfold handleImport
    rw [hT]
    simp [List.isEmpty_iff, hE]
  refine ⟨h1, fun m a => ?_⟩
  rw [h1]
  intro hcontra
  cases hcontra

/-- Witness for C4: a dataset with no data rows and a validator that
reports an error leads to `validationFailed`, not `submitted`. -/
theorem handleImport_blocked_witness :
    handleImport parseDec (fun _ => true) (fun _ => [("0", ["date is missing"])])
        { accountId := "a1", fieldMappings := fun _ => none,
          activityMappings := [], symbolMappings := fun _ => none }
        [] none [["Header"]]
      = ImportAction.validationFailed [("0", ["date is missing"])] :=
  (handleImport_blocked_by_validation parseDec (fun _ => true)
    (fun _ => [("0", ["date is missing"])])
    { accountId := "a1", fieldMappings := fun _ => none,
      activityMappings := [], symbolMappings := fun _ => none }
    [] none [["Header"]] [] rfl (by decide)).1

/-- C5: the mutation issues the mapping save before the check (the
call trace is `[save]` or `[save, check]`); a save failure issues no
check call and surfaces the error to the caller's error callback; a
check failure after a successful save leaves the save issued (the
mapping persisted) and surfaces the error; no step appears twice in
the trace (no automatic retry). -/
theorem saveAndCheck_sequencing (saveResult : Except String Unit)
    (checkResult : Except String (List ActivityImport)) :
    ((saveAndCheckMutationFn saveResult checkResult).1 = [MutationStep.saveMapping]
      ∨ (saveAndCheckMutationFn saveResult checkResult).1
          = [MutationStep.saveMapping, MutationStep.checkImport])
    ∧ (∀ e, saveResult = Except.error e →
        (saveAndCheckMutationFn saveResult checkResult).1 = [MutationStep.saveMapping]
        ∧ MutationStep.checkImport ∉ (saveAndCheckMutationFn saveResult checkResult).1
        ∧ surfacedError (saveAndCheckMutationFn saveResult checkResult).2
            = some ("Import failed: " ++ e))
    ∧ (∀ e, saveResult = Except.ok () → checkResult = Except.error e →
        MutationStep.saveMapping ∈ (saveAndCheckMutationFn saveResult checkResult).1
        ∧ surfacedError (saveAndCheckMutationFn saveResult checkResult).2
            = some ("Import failed: " ++ e))
    ∧ (saveAndCheckMutationFn saveResult checkResult).1.count MutationStep.saveMapping ≤ 1
    ∧ (saveAndCheckMutationFn saveResult checkResult).1.count MutationStep.checkImport ≤ 1 := by
  cases saveResult with
  | error e => simp [saveAndCheckMutationFn, surfacedError, List.count_cons]
  | ok u =>
    cases u
    cases checkResult with
    | error e => simp [saveAndCheckMutationFn, surfacedError, List.count_cons]
    | ok r => simp [saveAndCheckMutationFn, surfacedError, List.count_cons]

/-- Witness for C5 at concrete results: a failing save issues only the
save call and surfaces its message; a failing check after a successful
save keeps the save issued and surfaces its message. -/
theorem saveAndCheck_sequencing_witness :
    ((saveAndCheckMutationFn (Except.error "db locked") (Except.ok [])).1
        = [MutationStep.saveMapping]
      ∧ MutationStep.checkImport ∉
          (saveAndCheckMutationFn (Except.error "db locked") (Except.ok [])).1
      ∧ surfacedError (saveAndCheckMutationFn (Except.error "db locked") (Except.ok [])).2
          = some ("Import failed: " ++ "db locked"))
    ∧ (MutationStep.saveMapping ∈ (saveAndCheckMutationFn (Except.ok ()) (Except.error "dup")).1
      ∧ surfacedError (saveAndCheckMutationFn (Except.ok ()) (Except.error "dup")).2
          = some ("Import failed: " ++ "dup")) :=
  ⟨(saveAndCheck_sequencing (Except.error "db locked") (Except.ok [])).2.1 "db locked" rfl,
   (saveAndCheck_sequencing (Except.ok ()) (Except.error "dup")).2.2.1 "dup" rfl rfl⟩
